import Mathlib

/-!
Shallow embedding of the `bigchappa/internship-task` ledger service.

The repository is a FastAPI application over a relational store.  The parts
with real logic are embedded here:

* `Main.post_transaction`  — `src/main.py:97-133`, applies a signed amount to
  a per-user per-currency balance and records a `Transaction`;
* `Main.patch_rollback_transaction` — `src/main.py:136-184`, reverses a
  previously processed transaction;
* `Tasks.get_transaction_analysis` — `src/tasks.py:28-78`, the weekly
  analytics aggregator loop;
* `Main.get_transaction_analysis` — `src/main.py:187-190`, the endpoint that
  submits the aggregator as a background job;
* `PythonModels.RequestTransactionModel` — `src/python_models.py:74-76`, the
  request validation gate for transaction creation.

Database rows are lists of records; `scalar_one_or_none` / `session.get`
become `List.find?`; an ORM in-place row update becomes `updateFirst`
(updating the row the query fetched, i.e. the first match).  Monetary
amounts, stored as floats in the source, are embedded as exact integers:
every property at stake is an order/arithmetic property that the source
treats as exact arithmetic.  A handler that raises (or early-returns) an
HTTP error before `session.commit` leaves the store untouched, so handlers
are embedded as `Except`-valued functions that produce no successor state
on error.
-/

/-- Updates the first element of a list satisfying `p` (the row fetched by a
`SELECT ... LIMIT`/`scalar_one_or_none` query) by `f`, leaving the rest
unchanged. -/
def updateFirst {α : Type} (p : α → Bool) (f : α → α) : List α → List α
  | [] => []
  | a :: l => if p a then f a :: l else a :: updateFirst p f l

/-! ## Data model (`src/python_models.py`, `db_models`) -/

/-- `UserStatusEnum` (python_models.py:22-24). -/
inductive UserStatus : Type
  | ACTIVE
  | BLOCKED
deriving DecidableEq, BEq

/-- `TransactionStatusEnum` (python_models.py:27-29). -/
inductive TxStatus : Type
  | PROCESSED
  | ROLLBACKED
deriving DecidableEq, BEq

/-- `CurrencyEnum` (python_models.py:9-19), a fixed closed enumeration. -/
inductive Currency : Type
  | USD | EUR | AUD | CAD | ARS | PLN | BTC | ETH | DOGE | USDT
deriving DecidableEq, BEq

namespace Main

/-- A `User` row: id, status, creation day. -/
structure User : Type where
  id : Nat
  status : UserStatus
deriving DecidableEq

/-- A `UserBalance` row, keyed by `(user_id, currency)`. -/
structure UserBalance : Type where
  user_id : Nat
  currency : Currency
  amount : Int
deriving DecidableEq

/-- A `Transaction` row. -/
structure Transaction : Type where
  id : Nat
  user_id : Nat
  currency : Currency
  amount : Int
  status : TxStatus
deriving DecidableEq

/-- The ledger store: the three tables the Balance Engine touches. -/
structure LedgerState : Type where
  users : List User
  balances : List UserBalance
  transactions : List Transaction
deriving DecidableEq

/-- The semantic error kinds raised by the two Balance Engine handlers
(`HTTPException`s and the typed exceptions of `exceptions.py`). -/
inductive ApiError : Type
  | UserNotFound
  | UserBlocked
  | BalanceNotFound
  | NegativeBalance
  | TransactionNotFound
  | TransactionOwnership
  | TransactionAlreadyRollbacked
deriving DecidableEq

/-- `session.get(User, user_id)`: row lookup by primary key. -/
def userById (uid : Nat) : User → Bool := fun u => decide (u.id = uid)

/-- `select(UserBalance).where(user_id == ..., currency == ...)`. -/
def balKey (uid : Nat) (c : Currency) : UserBalance → Bool :=
  fun b => decide (b.user_id = uid ∧ b.currency = c)

/-- `select(Transaction).where(Transaction.id == transaction_id)`. -/
def txById (tid : Nat) : Transaction → Bool := fun t => decide (t.id = tid)

/-- Embeds `post_transaction` (main.py:97-133).  Checks, in source order:
user exists (the source builds an `HTTPException(404)` and early-returns it
without writing, embedded as an error outcome), user is `ACTIVE`, a balance
row exists for `(user_id, currency)`; then computes
`new_balance = amount + transaction.amount`, rejects a negative result, and
otherwise writes the balance and appends one `PROCESSED` transaction row,
committing both together.  `tx_id` is the store-assigned fresh primary key of
the inserted row. -/
def post_transaction (s : LedgerState) (user_id : Nat) (currency : Currency)
    (amount : Int) (tx_id : Nat) : Except ApiError (LedgerState × Transaction) :=
  match s.users.find? (userById user_id) with
  | none => Except.error ApiError.UserNotFound
  | some user =>
    if user.status ≠ UserStatus.ACTIVE then Except.error ApiError.UserBlocked
    else
      match s.balances.find? (balKey user_id currency) with
      | none => Except.error ApiError.BalanceNotFound
      | some user_balance =>
        let new_balance := user_balance.amount + amount
        if new_balance < 0 then Except.error ApiError.NegativeBalance
        else
          let db_transaction : Transaction :=
            { id := tx_id, user_id := user_id, currency := currency,
              amount := amount, status := TxStatus.PROCESSED }
          Except.ok
            ({ s with
                balances := updateFirst (balKey user_id currency)
                  (fun b => { b with amount := new_balance }) s.balances,
                transactions := s.transactions ++ [db_transaction] },
              db_transaction)

/-- Embeds `patch_rollback_transaction` (main.py:136-184).  Inside one
database transaction (`session.begin`), checks in source order: user exists,
user is not `BLOCKED`, the transaction exists (fetched `with_for_update`),
belongs to the user, and is not already `ROLLBACKED`; then fetches the
balance row, computes `new_balance = balance.amount - transaction.amount`,
rejects a negative result, and otherwise writes the balance and flips the
transaction's status to `ROLLBACKED`, atomically. -/
def patch_rollback_transaction (s : LedgerState) (user_id : Nat)
    (transaction_id : Nat) : Except ApiError (LedgerState × Transaction) :=
  match s.users.find? (userById user_id) with
  | none => Except.error ApiError.UserNotFound
  | some user =>
    if user.status = UserStatus.BLOCKED then Except.error ApiError.UserBlocked
    else
      match s.transactions.find? (txById transaction_id) with
      | none => Except.error ApiError.TransactionNotFound
      | some transaction =>
        if transaction.user_id ≠ user_id then
          Except.error ApiError.TransactionOwnership
        else if transaction.status = TxStatus.ROLLBACKED then
          Except.error ApiError.TransactionAlreadyRollbacked
        else
          match s.balances.find? (balKey user_id transaction.currency) with
          | none => Except.error ApiError.BalanceNotFound
          | some user_balance =>
            let new_balance := user_balance.amount - transaction.amount
            if new_balance < 0 then Except.error ApiError.NegativeBalance
            else
              Except.ok
                ({ s with
                    balances := updateFirst (balKey user_id transaction.currency)
                      (fun b => { b with amount := new_balance }) s.balances,
                    transactions := updateFirst (txById transaction_id)
                      (fun t => { t with status := TxStatus.ROLLBACKED })
                      s.transactions },
                  { transaction with status := TxStatus.ROLLBACKED })

/-- A Balance Engine operation: one call to either handler. -/
inductive Op : Type
  | apply (user_id : Nat) (currency : Currency) (amount : Int) (tx_id : Nat)
  | rollback (user_id : Nat) (transaction_id : Nat)

/-- Runs one operation: a failing handler aborts its enclosing database
transaction, so the store is unchanged on error. -/
def runOp (s : LedgerState) : Op → LedgerState
  | Op.apply uid c a tid =>
    match post_transaction s uid c a tid with
    | Except.ok (s', _) => s'
    | Except.error _ => s
  | Op.rollback uid tid =>
    match patch_rollback_transaction s uid tid with
    | Except.ok (s', _) => s'
    | Except.error _ => s

/-- Runs a sequence of Balance Engine operations. -/
def runOps (s : LedgerState) (ops : List Op) : LedgerState :=
  ops.foldl runOp s

/-- The non-negativity invariant: every balance row is `≥ 0`. -/
def balancesNonneg (s : LedgerState) : Prop :=
  ∀ b ∈ s.balances, 0 ≤ b.amount

instance (s : LedgerState) : Decidable (balancesNonneg s) :=
  List.decidableBAll _ s.balances

end Main

/-! ## Analytics aggregator (`src/tasks.py`) -/

namespace Tasks

/-- The seven per-bucket metrics the aggregator queries
(tasks.py:36-48), in source order. -/
structure WeeklyMetrics : Type where
  registered_users_count : Nat
  registered_and_deposit_users_count : Nat
  registered_and_not_rollbacked_deposit_users_count : Nat
  not_rollbacked_deposit_amount : Int
  not_rollbacked_withdraw_amount : Int
  transactions_count : Nat
  not_rollbacked_transactions_count : Nat
deriving DecidableEq

/-- One emitted entry of the analysis result (tasks.py:61-73): the bucket
bounds and its metrics.  Dates are embedded as integer day numbers; Python's
`timedelta(weeks=w)` is `7 * w` days. -/
structure WeeklyStat : Type where
  start_date : Int
  end_date : Int
  metrics : WeeklyMetrics
deriving DecidableEq

/-- The emission test (tasks.py:50-60): `any([... > 0, ...])` over the seven
metrics. -/
def anyPositive (m : WeeklyMetrics) : Bool :=
  decide (0 < m.registered_users_count) ||
  decide (0 < m.registered_and_deposit_users_count) ||
  decide (0 < m.registered_and_not_rollbacked_deposit_users_count) ||
  decide (0 < m.not_rollbacked_deposit_amount) ||
  decide (0 < m.not_rollbacked_withdraw_amount) ||
  decide (0 < m.transactions_count) ||
  decide (0 < m.not_rollbacked_transactions_count)

/-- The `for _ in range(weeks)` loop of `get_transaction_analysis`
(tasks.py:34-76): each iteration queries the seven metrics for the current
`(dt_gt, dt_lt)` range, appends an entry when `anyPositive`, then decrements
both bounds by one week (7 days).  The seven queries are abstracted as a
single function `queries dt_gt dt_lt` returning all seven values, exactly
the data the loop body consumes. -/
def analysisLoop (queries : Int → Int → WeeklyMetrics) :
    Nat → Int → Int → List WeeklyStat
  | 0, _, _ => []
  | n + 1, dt_gt, dt_lt =>
    let m := queries dt_gt dt_lt
    let rest := analysisLoop queries n (dt_gt - 7) (dt_lt - 7)
    if anyPositive m then { start_date := dt_gt, end_date := dt_lt, metrics := m } :: rest
    else rest

/-- Embeds `get_transaction_analysis` (tasks.py:28-78): starts from
`dt_lt = today`, `dt_gt = today - timedelta(weeks=weeks)` and runs the loop
`weeks` times. -/
def get_transaction_analysis (queries : Int → Int → WeeklyMetrics)
    (today : Int) (weeks : Nat) : List WeeklyStat :=
  analysisLoop queries weeks (today - 7 * (weeks : Int)) today

/-- Embeds the celery task `generate_transaction_analysis_task`
(tasks.py:17-25): its body runs `get_transaction_analysis(weeks=weeks)`;
the Python parameter default is `weeks=52`. -/
def generate_transaction_analysis_task (queries : Int → Int → WeeklyMetrics)
    (today : Int) (weeks : Nat) : List WeeklyStat :=
  get_transaction_analysis queries today weeks

/-- The full sequence of buckets the loop scans (before the emission
filter): `n` buckets starting at `(dt_gt, dt_lt)`, each one week earlier
than the previous. -/
def allBuckets (queries : Int → Int → WeeklyMetrics) :
    Nat → Int → Int → List WeeklyStat
  | 0, _, _ => []
  | n + 1, dt_gt, dt_lt =>
    { start_date := dt_gt, end_date := dt_lt, metrics := queries dt_gt dt_lt } ::
      allBuckets queries n (dt_gt - 7) (dt_lt - 7)

end Tasks

/-! ## The seven queries, modelled from the spec

The loop in `tasks.py` imports its seven query functions from `queries.py`,
a file of this repository that is not under `src/`.  They are modelled here
from the spec. -/

namespace Queries

/-- A user row as the aggregator sees it: id and registration day. -/
structure AUser : Type where
  id : Nat
  created : Int
deriving DecidableEq

/-- A transaction row as the aggregator sees it: owner, signed amount
(positive = deposit, negative = withdrawal), status, creation day. -/
structure ATx : Type where
  user_id : Nat
  amount : Int
  status : TxStatus
  created : Int
deriving DecidableEq

/-- The transaction/user history the queries scan. -/
structure History : Type where
  users : List AUser
  txs : List ATx
deriving DecidableEq

/-- Membership of a day in the half-open bucket `[dt_gt, dt_lt)`
(spec section 4.2: "For each bucket `[start, end)`"). -/
def inRange (dt_gt dt_lt d : Int) : Bool := decide (dt_gt ≤ d ∧ d < dt_lt)

/-- A deposit is a positive-amount transaction (spec section 3). -/
def isDeposit (t : ATx) : Bool := decide (0 < t.amount)

/-- A withdrawal is a negative-amount transaction (spec section 3). -/
def isWithdraw (t : ATx) : Bool := decide (t.amount < 0)

/-- Not rolled back: status is still `PROCESSED`. -/
def notRollbacked (t : ATx) : Bool := decide (t.status ≠ TxStatus.ROLLBACKED)

/-- Modelled from the spec: `get_registered_users_count` of `queries.py`
(absent from `src/`); spec section 4.2 metric 1, users registered in
range. -/
def get_registered_users_count (h : History) (dt_gt dt_lt : Int) : Nat :=
  (h.users.filter (fun u => inRange dt_gt dt_lt u.created)).length

/-- Modelled from the spec: `get_registered_and_deposit_users_count` of
`queries.py` (absent from `src/`); spec section 4.2 metric 2, users
registered in range who made at least one deposit in range. -/
def get_registered_and_deposit_users_count (h : History) (dt_gt dt_lt : Int) : Nat :=
  (h.users.filter (fun u => inRange dt_gt dt_lt u.created &&
    h.txs.any (fun t =>
      decide (t.user_id = u.id) && isDeposit t && inRange dt_gt dt_lt t.created))).length

/-- Modelled from the spec:
`get_registered_and_not_rollbacked_deposit_users_count` of `queries.py`
(absent from `src/`); spec section 4.2 metric 3, users registered in range
with at least one not-rolled-back deposit in range. -/
def get_registered_and_not_rollbacked_deposit_users_count
    (h : History) (dt_gt dt_lt : Int) : Nat :=
  (h.users.filter (fun u => inRange dt_gt dt_lt u.created &&
    h.txs.any (fun t =>
      decide (t.user_id = u.id) && isDeposit t && notRollbacked t &&
        inRange dt_gt dt_lt t.created))).length

/-- Modelled from the spec: `get_not_rollbacked_deposit_amount` of
`queries.py` (absent from `src/`); spec section 4.2 metric 4, sum of amounts
of non-rolled-back deposits in range. -/
def get_not_rollbacked_deposit_amount (h : History) (dt_gt dt_lt : Int) : Int :=
  ((h.txs.filter (fun t =>
    isDeposit t && notRollbacked t && inRange dt_gt dt_lt t.created)).map ATx.amount).sum

/-- Modelled from the spec: `get_not_rollbacked_withdraw_amount` of
`queries.py` (absent from `src/`); spec section 4.2 metric 5, sum of amounts
of non-rolled-back withdrawals in range. -/
def get_not_rollbacked_withdraw_amount (h : History) (dt_gt dt_lt : Int) : Int :=
  ((h.txs.filter (fun t =>
    isWithdraw t && notRollbacked t && inRange dt_gt dt_lt t.created)).map ATx.amount).sum

/-- Modelled from the spec: `get_transactions_count` of `queries.py`
(absent from `src/`); spec section 4.2 metric 6, total transaction count in
range. -/
def get_transactions_count (h : History) (dt_gt dt_lt : Int) : Nat :=
  (h.txs.filter (fun t => inRange dt_gt dt_lt t.created)).length

/-- Modelled from the spec: `get_not_rollbacked_transactions_count` of
`queries.py` (absent from `src/`); spec section 4.2 metric 7, non-rolled-back
transaction count in range. -/
def get_not_rollbacked_transactions_count (h : History) (dt_gt dt_lt : Int) : Nat :=
  (h.txs.filter (fun t => notRollbacked t && inRange dt_gt dt_lt t.created)).length

/-- The seven queries over a concrete history, packaged the way the
aggregator loop consumes them. -/
def queriesOfHistory (h : History) : Int → Int → Tasks.WeeklyMetrics :=
  fun dt_gt dt_lt =>
    { registered_users_count := get_registered_users_count h dt_gt dt_lt
      registered_and_deposit_users_count :=
        get_registered_and_deposit_users_count h dt_gt dt_lt
      registered_and_not_rollbacked_deposit_users_count :=
        get_registered_and_not_rollbacked_deposit_users_count h dt_gt dt_lt
      not_rollbacked_deposit_amount := get_not_rollbacked_deposit_amount h dt_gt dt_lt
      not_rollbacked_withdraw_amount := get_not_rollbacked_withdraw_amount h dt_gt dt_lt
      transactions_count := get_transactions_count h dt_gt dt_lt
      not_rollbacked_transactions_count :=
        get_not_rollbacked_transactions_count h dt_gt dt_lt }

/-- The history of spec scenario D at window 3: one user registered long
before the window, and a single `PROCESSED` deposit of 50 placed on day
`-10`, i.e. inside the middle week `[-14, -7)` of the three weeks before
day `0`. -/
def scenarioD : History :=
  { users := [{ id := 1, created := -100 }]
    txs := [{ user_id := 1, amount := 50, status := TxStatus.PROCESSED, created := -10 }] }

end Queries

namespace Main

/-- Embeds the `/transactions/analysis` endpoint `get_transaction_analysis`
(main.py:187-190).  The endpoint takes a query parameter `weeks: int = 52`
but submits the job as `generate_transaction_analysis_task.delay()` with no
argument, so the job always runs with the celery task's Python default
`weeks=52`; the endpoint's `weeks` parameter is never forwarded.  The value
embedded here is the analysis the submitted job computes. -/
def get_transaction_analysis (queries : Int → Int → Tasks.WeeklyMetrics)
    (today : Int) (weeks : Nat) : List Tasks.WeeklyStat :=
  Tasks.generate_transaction_analysis_task queries today 52

end Main

/-! ## Request validation (`src/python_models.py`) -/

namespace PythonModels

/-- `RequestTransactionModel` (python_models.py:74-76): the body of a
transaction-creation request. -/
structure RequestTransactionModel : Type where
  currency : Currency
  amount : Int
deriving DecidableEq

/-- Embeds the pydantic constraint `amount: float = Field(ge=1)`
(python_models.py:76): a request passes validation iff its amount is at
least 1. -/
def RequestTransactionModel.validate (r : RequestTransactionModel) : Bool :=
  decide (1 ≤ r.amount)

end PythonModels

/-! ## Concrete fixtures for the witnesses and counterexamples -/

namespace Main

/-- One `ACTIVE` user with a 10-unit USD balance and no transactions. -/
def stateActive : LedgerState :=
  { users := [{ id := 1, status := UserStatus.ACTIVE }]
    balances := [{ user_id := 1, currency := Currency.USD, amount := 10 }]
    transactions := [] }

/-- One `BLOCKED` user with a USD balance. -/
def stateBlocked : LedgerState :=
  { users := [{ id := 2, status := UserStatus.BLOCKED }]
    balances := [{ user_id := 2, currency := Currency.USD, amount := 10 }]
    transactions := [] }

/-- An `ACTIVE` user holding 3 USD and one `PROCESSED` 10-unit deposit whose
reversal would drive the balance negative. -/
def stateLowBalance : LedgerState :=
  { users := [{ id := 1, status := UserStatus.ACTIVE }]
    balances := [{ user_id := 1, currency := Currency.USD, amount := 3 }]
    transactions := [{ id := 1, user_id := 1, currency := Currency.USD,
                       amount := 10, status := TxStatus.PROCESSED }] }

/-- An `ACTIVE` user with one already-`ROLLBACKED` transaction. -/
def stateRolledBack : LedgerState :=
  { users := [{ id := 1, status := UserStatus.ACTIVE }]
    balances := [{ user_id := 1, currency := Currency.USD, amount := 10 }]
    transactions := [{ id := 1, user_id := 1, currency := Currency.USD,
                       amount := 5, status := TxStatus.ROLLBACKED }] }

/-- The store `stateActive` after a 5-unit USD deposit recorded as
transaction 2. -/
def stateAfterDeposit : LedgerState :=
  { users := [{ id := 1, status := UserStatus.ACTIVE }]
    balances := [{ user_id := 1, currency := Currency.USD, amount := 15 }]
    transactions := [{ id := 2, user_id := 1, currency := Currency.USD,
                       amount := 5, status := TxStatus.PROCESSED }] }

/-- One `PROCESSED` transaction eligible for rollback. -/
def stateOneProcessed : LedgerState :=
  { users := [{ id := 1, status := UserStatus.ACTIVE }]
    balances := [{ user_id := 1, currency := Currency.USD, amount := 10 }]
    transactions := [{ id := 1, user_id := 1, currency := Currency.USD,
                       amount := 4, status := TxStatus.PROCESSED }] }

end Main

/-- A metrics table with constant nonzero activity: every scanned bucket is
emitted, so the emitted count equals the window width in weeks. -/
def constQueries : Int → Int → Tasks.WeeklyMetrics :=
  fun _ _ =>
    { registered_users_count := 0
      registered_and_deposit_users_count := 0
      registered_and_not_rollbacked_deposit_users_count := 0
      not_rollbacked_deposit_amount := 0
      not_rollbacked_withdraw_amount := 0
      transactions_count := 1
      not_rollbacked_transactions_count := 1 }

/-! ## Lemmas about `updateFirst` and `find?` -/

theorem mem_updateFirst {α : Type} (p : α → Bool) (f : α → α) :
    ∀ (l : List α) (b : α), b ∈ updateFirst p f l → b ∈ l ∨ ∃ a, a ∈ l ∧ b = f a := by
  intro l
  induction l with
  | nil => intro b hb; cases hb
  | cons a l ih =>
    intro b hb
    by_cases hpa : p a
    · simp only [updateFirst, hpa, if_true] at hb
      rcases List.mem_cons.mp hb with h | h
      · exact Or.inr ⟨a, List.mem_cons_self a l, h⟩
      · exact Or.inl (List.mem_cons_of_mem a h)
    · simp only [updateFirst, hpa, if_false] at hb
      rcases List.mem_cons.mp hb with h | h
      · exact Or.inl (h ▸ List.mem_cons_self a l)
      · rcases ih b h with h' | ⟨x, hx, hbx⟩
        · exact Or.inl (List.mem_cons_of_mem a h')
        · exact Or.inr ⟨x, List.mem_cons_of_mem a hx, hbx⟩

theorem find?_updateFirst {α : Type} (p : α → Bool) (f : α → α)
    (hf : ∀ a, p (f a) = p a) :
    ∀ l : List α, (updateFirst p f l).find? p = (l.find? p).map f := by
  intro l
  induction l with
  | nil => rfl
  | cons a l ih =>
    by_cases hpa : p a
    · simp only [updateFirst, hpa, if_true]
      rw [List.find?_cons_of_pos _ ((hf a).trans (by simp [hpa])),
          List.find?_cons_of_pos _ (by simpa using hpa)]
      rfl
    · simp only [updateFirst, hpa, Bool.false_eq_true, if_false]
      rw [List.find?_cons_of_neg _ hpa, List.find?_cons_of_neg _ hpa]
      exact ih

theorem getElem?_updateFirst {α : Type} (p : α → Bool) (f : α → α) :
    ∀ (l : List α) (i : Nat) (t tp : α), l[i]? = some t →
      (updateFirst p f l)[i]? = some tp →
      tp = t ∨ (l.find? p = some t ∧ tp = f t) := by
  intro l
  induction l with
  | nil => intro i t tp h; simp at h
  | cons a l ih =>
    intro i t tp ht htp
    by_cases hpa : p a
    · simp only [updateFirst, hpa, if_true] at htp
      cases i with
      | zero =>
        simp only [List.getElem?_cons_zero, Option.some.injEq] at ht htp
        subst ht
        subst htp
        exact Or.inr ⟨List.find?_cons_of_pos _ hpa, rfl⟩
      | succ n =>
        simp only [List.getElem?_cons_succ] at ht htp
        rw [ht] at htp
        exact Or.inl (Option.some_inj.mp htp).symm
    · simp only [updateFirst, hpa, Bool.false_eq_true, if_false] at htp
      cases i with
      | zero =>
        simp only [List.getElem?_cons_zero, Option.some.injEq] at ht htp
        subst ht
        subst htp
        exact Or.inl rfl
      | succ n =>
        simp only [List.getElem?_cons_succ] at ht htp
        rcases ih n t tp ht htp with h | ⟨hfind, hfa⟩
        · exact Or.inl h
        · exact Or.inr ⟨by rw [List.find?_cons_of_neg _ hpa]; exact hfind, hfa⟩

theorem find?_append_of_none {α : Type} (p : α → Bool) (l₁ l₂ : List α)
    (h : l₁.find? p = none) : (l₁ ++ l₂).find? p = l₂.find? p := by
  induction l₁ with
  | nil => rfl
  | cons a l ih =>
    by_cases hpa : p a
    · rw [List.find?_cons_of_pos _ hpa] at h; cases h
    · rw [List.find?_cons_of_neg _ hpa] at h
      rw [List.cons_append, List.find?_cons_of_neg _ hpa]
      exact ih h

/-! ## Helper lemmas about the two handlers -/

namespace Main

theorem balKey_update_amount (uid : Nat) (c : Currency) (v : Int) (b : UserBalance) :
    balKey uid c { b with amount := v } = balKey uid c b := rfl

theorem txById_update_status (tid : Nat) (st : TxStatus) (t : Transaction) :
    txById tid { t with status := st } = txById tid t := rfl

/-- Forward evaluation of a successful `post_transaction`. -/
theorem post_transaction_ok_val (s : LedgerState) (uid : Nat) (c : Currency)
    (a : Int) (tid : Nat) (u : User) (bal : UserBalance)
    (h_user : s.users.find? (userById uid) = some u)
    (h_active : u.status = UserStatus.ACTIVE)
    (h_bal : s.balances.find? (balKey uid c) = some bal)
    (h_nonneg : 0 ≤ bal.amount + a) :
    post_transaction s uid c a tid = Except.ok
      ({ s with
          balances := updateFirst (balKey uid c)
            (fun b => { b with amount := bal.amount + a }) s.balances,
          transactions := s.transactions ++
            [{ id := tid, user_id := uid, currency := c, amount := a,
               status := TxStatus.PROCESSED }] },
        { id := tid, user_id := uid, currency := c, amount := a,
          status := TxStatus.PROCESSED }) := by
  unfold post_transaction
  rw [h_user, h_bal]
  simp [h_active, not_lt.mpr h_nonneg]

/-- Inversion of a successful `post_transaction`. -/
theorem post_transaction_ok_inv (s : LedgerState) (uid : Nat) (c : Currency)
    (a : Int) (tid : Nat) (s₁ : LedgerState) (t : Transaction)
    (h : post_transaction s uid c a tid = Except.ok (s₁, t)) :
    ∃ u bal, s.users.find? (userById uid) = some u ∧
      u.status = UserStatus.ACTIVE ∧
      s.balances.find? (balKey uid c) = some bal ∧ 0 ≤ bal.amount + a ∧
      t = { id := tid, user_id := uid, currency := c, amount := a,
            status := TxStatus.PROCESSED } ∧
      s₁ = { s with
        balances := updateFirst (balKey uid c)
          (fun b => { b with amount := bal.amount + a }) s.balances,
        transactions := s.transactions ++ [t] } := by
  simp only [post_transaction] at h
  split at h
  · cases h
  case _ u h_user =>
    split at h
    · cases h
    case _ h_stat =>
      split at h
      · cases h
      case _ bal h_bal =>
        split at h
        · cases h
        case _ h_neg =>
          injection h with h_pair
          injection h_pair with hs₁ ht
          subst hs₁
          subst ht
          exact ⟨u, bal, h_user, not_not.mp h_stat, h_bal, not_lt.mp h_neg, rfl, rfl⟩

/-- Forward evaluation of a successful `patch_rollback_transaction`. -/
theorem patch_rollback_ok_val (s : LedgerState) (uid tid : Nat)
    (u : User) (t : Transaction) (bal : UserBalance)
    (h_user : s.users.find? (userById uid) = some u)
    (h_nb : u.status ≠ UserStatus.BLOCKED)
    (h_tx : s.transactions.find? (txById tid) = some t)
    (h_own : t.user_id = uid)
    (h_st : t.status = TxStatus.PROCESSED)
    (h_bal : s.balances.find? (balKey uid t.currency) = some bal)
    (h_nonneg : 0 ≤ bal.amount - t.amount) :
    patch_rollback_transaction s uid tid = Except.ok
      ({ s with
          balances := updateFirst (balKey uid t.currency)
            (fun b => { b with amount := bal.amount - t.amount }) s.balances,
          transactions := updateFirst (txById tid)
            (fun x => { x with status := TxStatus.ROLLBACKED }) s.transactions },
        { t with status := TxStatus.ROLLBACKED }) := by
  unfold patch_rollback_transaction
  rw [h_user]
  simp [h_nb, h_tx, h_bal, h_own, h_st, not_lt.mpr h_nonneg]

/-- Inversion of a successful `patch_rollback_transaction`. -/
theorem patch_rollback_ok_inv (s : LedgerState) (uid tid : Nat)
    (s₁ : LedgerState) (t₁ : Transaction)
    (h : patch_rollback_transaction s uid tid = Except.ok (s₁, t₁)) :
    ∃ u t bal, s.users.find? (userById uid) = some u ∧
      u.status ≠ UserStatus.BLOCKED ∧
      s.transactions.find? (txById tid) = some t ∧ t.user_id = uid ∧
      t.status = TxStatus.PROCESSED ∧
      s.balances.find? (balKey uid t.currency) = some bal ∧
      0 ≤ bal.amount - t.amount ∧
      t₁ = { t with status := TxStatus.ROLLBACKED } ∧
      s₁ = { s with
        balances := updateFirst (balKey uid t.currency)
          (fun b => { b with amount := bal.amount - t.amount }) s.balances,
        transactions := updateFirst (txById tid)
          (fun x => { x with status := TxStatus.ROLLBACKED }) s.transactions } := by
  simp only [patch_rollback_transaction] at h
  split at h
  · cases h
  case _ u h_user =>
    split at h
    · cases h
    case _ h_stat =>
      split at h
      · cases h
      case _ t h_tx =>
        split at h
        · cases h
        case _ h_own =>
          split at h
          · cases h
          case _ h_rb =>
            split at h
            · cases h
            case _ bal h_bal =>
              split at h
              · cases h
              case _ h_neg =>
                injection h with h_pair
                injection h_pair with hs₁ ht₁
                subst hs₁
                subst ht₁
                have h_proc : t.status = TxStatus.PROCESSED := by
                  cases hx : t.status
                  · rfl
                  · exact absurd hx h_rb
                exact ⟨u, t, bal, h_user, h_stat, h_tx, not_not.mp h_own,
                  h_proc, h_bal, not_lt.mp h_neg, rfl, rfl⟩

/-- One Balance Engine operation preserves the non-negativity invariant. -/
theorem runOp_preserves_nonneg (s : LedgerState) (op : Op)
    (h : balancesNonneg s) : balancesNonneg (runOp s op) := by
  cases op with
  | apply uid c a tid =>
    cases heq : post_transaction s uid c a tid with
    | error e =>
      simp only [runOp, heq]
      exact h
    | ok p =>
      obtain ⟨s₁, t⟩ := p
      simp only [runOp, heq]
      obtain ⟨u, bal, _, _, _, h_nonneg, _, hs₁⟩ :=
        post_transaction_ok_inv s uid c a tid s₁ t heq
      subst hs₁
      intro b hb
      rcases mem_updateFirst _ _ s.balances b hb with hb' | ⟨x, _, hbx⟩
      · exact h b hb'
      · rw [hbx]; exact h_nonneg
  | rollback uid tid =>
    cases heq : patch_rollback_transaction s uid tid with
    | error e =>
      simp only [runOp, heq]
      exact h
    | ok p =>
      obtain ⟨s₁, t₁⟩ := p
      simp only [runOp, heq]
      obtain ⟨u, t, bal, _, _, _, _, _, _, h_nonneg, _, hs₁⟩ :=
        patch_rollback_ok_inv s uid tid s₁ t₁ heq
      subst hs₁
      intro b hb
      rcases mem_updateFirst _ _ s.balances b hb with hb' | ⟨x, _, hbx⟩
      · exact h b hb'
      · rw [hbx]; exact h_nonneg

end Main

/-- The loop emits exactly the scanned buckets whose metrics pass the
`anyPositive` test, in scan order. -/
theorem analysisLoop_eq_filter (queries : Int → Int → Tasks.WeeklyMetrics) :
    ∀ (n : Nat) (dt_gt dt_lt : Int),
      Tasks.analysisLoop queries n dt_gt dt_lt =
        (Tasks.allBuckets queries n dt_gt dt_lt).filter
          (fun w => Tasks.anyPositive w.metrics) := by
  intro n
  induction n with
  | zero => intro dt_gt dt_lt; rfl
  | succ n ih =>
    intro dt_gt dt_lt
    simp only [Tasks.analysisLoop, Tasks.allBuckets, List.filter_cons]
    rw [ih]

/-! ## The claims -/

/-- C1: the claim says `Aggregate(window_weeks)` partitions time into
`window_weeks` consecutive, non-overlapping 7-day buckets ending at today,
and that `Aggregate(3)` over a history whose only activity lies in the
middle week yields exactly one entry.  The code (tasks.py:31-32) initialises
`dt_gt = today - timedelta(weeks=weeks)` instead of one week before `dt_lt`,
so every scanned bucket spans `weeks*7` days and successive buckets overlap,
shifted back by 7 days.  On scenario D (one `PROCESSED` deposit on day
`-10`, the middle week of 3 before day `0`) the code emits two entries, each
21 days wide, instead of one 7-day entry. -/
theorem aggregate_buckets_width_bug :
    (Tasks.get_transaction_analysis
        (Queries.queriesOfHistory Queries.scenarioD) 0 3).map
      (fun w => (w.start_date, w.end_date)) = [(-21, 0), (-28, -7)] ∧
    (Tasks.get_transaction_analysis
        (Queries.queriesOfHistory Queries.scenarioD) 0 3).length ≠ 1 ∧
    ∀ w ∈ Tasks.get_transaction_analysis
        (Queries.queriesOfHistory Queries.scenarioD) 0 3,
      w.end_date - w.start_date = 21 := by decide

/-- C9: a scanned bucket appears in the result sequence iff at least one of
its seven metrics is strictly positive: the emitted sequence is exactly the
scanned bucket sequence filtered by `anyPositive`, and membership in the
result is equivalent to being a scanned bucket with some strictly positive
metric. -/
theorem aggregate_emits_iff_some_positive
    (queries : Int → Int → Tasks.WeeklyMetrics) (today : Int) (weeks : Nat) :
    Tasks.get_transaction_analysis queries today weeks =
      (Tasks.allBuckets queries weeks (today - 7 * (weeks : Int)) today).filter
        (fun w => Tasks.anyPositive w.metrics) ∧
    ∀ w, w ∈ Tasks.get_transaction_analysis queries today weeks ↔
      (w ∈ Tasks.allBuckets queries weeks (today - 7 * (weeks : Int)) today ∧
        Tasks.anyPositive w.metrics = true) := by
  constructor
  · exact analysisLoop_eq_filter queries weeks _ today
  · intro w
    rw [Tasks.get_transaction_analysis, analysisLoop_eq_filter queries weeks _ today]
    exact List.mem_filter

/-- C8: the claim says the analysis endpoint invokes the Aggregator job with
the requested window `w`.  The endpoint (main.py:189) calls
`generate_transaction_analysis_task.delay()` without forwarding its `weeks`
parameter, so the job always runs with the task's default window 52: at
`weeks = 3` the endpoint's job scans 52 buckets while a window-3 job would
scan 3. -/
theorem analysis_endpoint_ignores_weeks :
    (Main.get_transaction_analysis constQueries 0 3).length = 52 ∧
    (Tasks.generate_transaction_analysis_task constQueries 0 3).length = 3 ∧
    Main.get_transaction_analysis constQueries 0 3 ≠
      Tasks.generate_transaction_analysis_task constQueries 0 3 := by decide

/-- C8 (amended): for every request to the transaction-analysis endpoint,
the Aggregator job is invoked with the celery task's default window of 52
weeks, whatever the endpoint's `weeks` parameter; in particular when the
parameter is omitted (its own default, 52) the window is 52. -/
theorem analysis_endpoint_always_default_window
    (queries : Int → Int → Tasks.WeeklyMetrics) (today : Int) (weeks : Nat) :
    Main.get_transaction_analysis queries today weeks =
      Tasks.generate_transaction_analysis_task queries today 52 := rfl

/-- C2: for an `Apply` on an existing `ACTIVE` user with an existing balance
of `current_amount`: if `current_amount + amount < 0` the call fails with
`NegativeBalanceError` and the store is unchanged; otherwise (including a
zero result) it succeeds, the `(user_id, currency)` balance becomes
`current_amount + amount`, and exactly one new `PROCESSED` transaction row
with that amount is appended. -/
theorem post_transaction_apply_spec (s : Main.LedgerState) (uid : Nat)
    (c : Currency) (a : Int) (tid : Nat) (u : Main.User) (bal : Main.UserBalance)
    (h_user : s.users.find? (Main.userById uid) = some u)
    (h_active : u.status = UserStatus.ACTIVE)
    (h_bal : s.balances.find? (Main.balKey uid c) = some bal) :
    (bal.amount + a < 0 →
      Main.post_transaction s uid c a tid =
        Except.error Main.ApiError.NegativeBalance ∧
      Main.runOp s (Main.Op.apply uid c a tid) = s) ∧
    (0 ≤ bal.amount + a →
      ∃ s₁ t, Main.post_transaction s uid c a tid = Except.ok (s₁, t) ∧
        t.status = TxStatus.PROCESSED ∧ t.amount = a ∧
        s₁.transactions = s.transactions ++ [t] ∧
        (s₁.balances.find? (Main.balKey uid c)).map Main.UserBalance.amount =
          some (bal.amount + a)) := by
  constructor
  · intro h_neg
    have herr : Main.post_transaction s uid c a tid =
        Except.error Main.ApiError.NegativeBalance := by
      unfold Main.post_transaction
      rw [h_user]
      simp [h_active, h_bal, h_neg]
    exact ⟨herr, by simp only [Main.runOp, herr]⟩
  · intro h_nonneg
    refine ⟨_, _, Main.post_transaction_ok_val s uid c a tid u bal
      h_user h_active h_bal h_nonneg, rfl, rfl, rfl, ?_⟩
    rw [show ({ s with
        balances := updateFirst (Main.balKey uid c)
          (fun b => { b with amount := bal.amount + a }) s.balances,
        transactions := s.transactions ++
          [{ id := tid, user_id := uid, currency := c, amount := a,
             status := TxStatus.PROCESSED }] } : Main.LedgerState).balances =
      updateFirst (Main.balKey uid c)
        (fun b => { b with amount := bal.amount + a }) s.balances from rfl]
    rw [find?_updateFirst (Main.balKey uid c)
      (fun b => { b with amount := bal.amount + a }) (fun b => rfl) s.balances,
      h_bal]
    rfl

/-- C2 witness: on `stateActive` (balance 10) a delta of `-10` succeeds and
zeroes the balance, while a delta of `-11` fails with
`NegativeBalanceError` and changes nothing. -/
theorem post_transaction_apply_spec_witness :
    (Main.post_transaction Main.stateActive 1 Currency.USD (-11) 1 =
        Except.error Main.ApiError.NegativeBalance ∧
      Main.runOp Main.stateActive (Main.Op.apply 1 Currency.USD (-11) 1) =
        Main.stateActive) ∧
    (∃ s₁ t, Main.post_transaction Main.stateActive 1 Currency.USD (-10) 1 =
        Except.ok (s₁, t) ∧
      t.status = TxStatus.PROCESSED ∧ t.amount = -10 ∧
      s₁.transactions = Main.stateActive.transactions ++ [t] ∧
      (s₁.balances.find? (Main.balKey 1 Currency.USD)).map
        Main.UserBalance.amount = some 0) :=
  ⟨(post_transaction_apply_spec Main.stateActive 1 Currency.USD (-11) 1
      { id := 1, status := UserStatus.ACTIVE }
      { user_id := 1, currency := Currency.USD, amount := 10 }
      (by decide) (by decide) (by decide)).1 (by decide),
   (post_transaction_apply_spec Main.stateActive 1 Currency.USD (-10) 1
      { id := 1, status := UserStatus.ACTIVE }
      { user_id := 1, currency := Currency.USD, amount := 10 }
      (by decide) (by decide) (by decide)).2 (by decide)⟩

/-- C3: the non-negativity invariant is preserved by every sequence of
`Apply`/`Rollback` operations: starting from a store whose balances are all
non-negative, no sequence can make any balance negative. -/
theorem runOps_preserves_nonneg (s : Main.LedgerState) (ops : List Main.Op)
    (h : Main.balancesNonneg s) : Main.balancesNonneg (Main.runOps s ops) := by
  induction ops generalizing s with
  | nil => exact h
  | cons op ops ih => exact ih _ (Main.runOp_preserves_nonneg s op h)

/-- C3 witness: a concrete mixed sequence (deposit, overdraft attempt,
rollback) keeps all balances non-negative. -/
theorem runOps_preserves_nonneg_witness :
    Main.balancesNonneg
      (Main.runOps Main.stateActive
        [Main.Op.apply 1 Currency.USD 4 1,
         Main.Op.apply 1 Currency.USD (-100) 2,
         Main.Op.rollback 1 1]) :=
  runOps_preserves_nonneg Main.stateActive
    [Main.Op.apply 1 Currency.USD 4 1,
     Main.Op.apply 1 Currency.USD (-100) 2,
     Main.Op.rollback 1 1] (by decide)

/-- C4: a successful `Apply(delta)` followed by a rollback of the
transaction it created restores the `(user_id, currency)` balance to its
pre-`Apply` value exactly, for deposits and withdrawals alike; the rollback
succeeds whenever the starting balance was non-negative. -/
theorem apply_rollback_roundtrip (s : Main.LedgerState) (uid : Nat)
    (c : Currency) (a : Int) (tid : Nat) (u : Main.User) (bal : Main.UserBalance)
    (h_user : s.users.find? (Main.userById uid) = some u)
    (h_active : u.status = UserStatus.ACTIVE)
    (h_bal : s.balances.find? (Main.balKey uid c) = some bal)
    (h_b0 : 0 ≤ bal.amount)
    (h_sum : 0 ≤ bal.amount + a)
    (h_fresh : s.transactions.find? (Main.txById tid) = none) :
    ∃ s₁ t s₂ t₂,
      Main.post_transaction s uid c a tid = Except.ok (s₁, t) ∧
      Main.patch_rollback_transaction s₁ uid t.id = Except.ok (s₂, t₂) ∧
      (s₂.balances.find? (Main.balKey uid c)).map Main.UserBalance.amount =
        some bal.amount := by
  have h1 := Main.post_transaction_ok_val s uid c a tid u bal
    h_user h_active h_bal h_sum
  have h_nb : u.status ≠ UserStatus.BLOCKED := by
    rw [h_active]
    exact fun hx => UserStatus.noConfusion hx
  have h_tx : (s.transactions ++
      [({ id := tid, user_id := uid, currency := c, amount := a,
          status := TxStatus.PROCESSED } : Main.Transaction)]).find?
        (Main.txById tid) =
      some { id := tid, user_id := uid, currency := c, amount := a,
             status := TxStatus.PROCESSED } := by
    rw [find?_append_of_none _ _ _ h_fresh]
    exact List.find?_cons_of_pos _ (by simp [Main.txById])
  have h_bal₁ : (updateFirst (Main.balKey uid c)
      (fun b => { b with amount := bal.amount + a }) s.balances).find?
        (Main.balKey uid c) = some { bal with amount := bal.amount + a } := by
    rw [find?_updateFirst (Main.balKey uid c)
      (fun b => { b with amount := bal.amount + a }) (fun b => rfl) s.balances,
      h_bal]
    rfl
  have h_nonneg₂ : (0 : Int) ≤ bal.amount + a - a := by omega
  have h2 := Main.patch_rollback_ok_val
    { s with
        balances := updateFirst (Main.balKey uid c)
          (fun b => { b with amount := bal.amount + a }) s.balances,
        transactions := s.transactions ++
          [{ id := tid, user_id := uid, currency := c, amount := a,
             status := TxStatus.PROCESSED }] }
    uid tid u
    { id := tid, user_id := uid, currency := c, amount := a,
      status := TxStatus.PROCESSED }
    { bal with amount := bal.amount + a }
    h_user h_nb h_tx rfl rfl h_bal₁ h_nonneg₂
  refine ⟨_, _, _, _, h1, h2, ?_⟩
  show ((updateFirst (Main.balKey uid c)
      (fun b => { b with amount := bal.amount + a - a })
      (updateFirst (Main.balKey uid c)
        (fun b => { b with amount := bal.amount + a }) s.balances)).find?
      (Main.balKey uid c)).map Main.UserBalance.amount = some bal.amount
  rw [find?_updateFirst (Main.balKey uid c)
    (fun b => { b with amount := bal.amount + a - a }) (fun b => rfl) _, h_bal₁]
  simp [add_sub_cancel_right]

/-- C4 witness: on `stateActive` (balance 10) a withdrawal of 6 followed by
its rollback restores the balance to 10. -/
theorem apply_rollback_roundtrip_witness :
    ∃ s₁ t s₂ t₂,
      Main.post_transaction Main.stateActive 1 Currency.USD (-6) 7 =
        Except.ok (s₁, t) ∧
      Main.patch_rollback_transaction s₁ 1 t.id = Except.ok (s₂, t₂) ∧
      (s₂.balances.find? (Main.balKey 1 Currency.USD)).map
        Main.UserBalance.amount = some 10 :=
  apply_rollback_roundtrip Main.stateActive 1 Currency.USD (-6) 7
    { id := 1, status := UserStatus.ACTIVE }
    { user_id := 1, currency := Currency.USD, amount := 10 }
    (by decide) (by decide) (by decide) (by decide) (by decide) (by decide)

/-- C5: every failing `Apply` signals its error with no write: a missing
user gives `UserNotFoundError` (the source early-returns the 404 without
writing), a non-`ACTIVE` user gives `UserBlockedError`, a missing balance
gives `BalanceNotFoundError`, a negative result gives
`NegativeBalanceError`; and every error outcome leaves the store exactly as
it was — no balance change, no transaction row. -/
theorem post_transaction_error_cases (s : Main.LedgerState) (uid : Nat)
    (c : Currency) (a : Int) (tid : Nat) :
    (s.users.find? (Main.userById uid) = none →
      Main.post_transaction s uid c a tid =
        Except.error Main.ApiError.UserNotFound) ∧
    (∀ u, s.users.find? (Main.userById uid) = some u →
      u.status ≠ UserStatus.ACTIVE →
      Main.post_transaction s uid c a tid =
        Except.error Main.ApiError.UserBlocked) ∧
    (∀ u, s.users.find? (Main.userById uid) = some u →
      u.status = UserStatus.ACTIVE →
      s.balances.find? (Main.balKey uid c) = none →
      Main.post_transaction s uid c a tid =
        Except.error Main.ApiError.BalanceNotFound) ∧
    (∀ u bal, s.users.find? (Main.userById uid) = some u →
      u.status = UserStatus.ACTIVE →
      s.balances.find? (Main.balKey uid c) = some bal →
      bal.amount + a < 0 →
      Main.post_transaction s uid c a tid =
        Except.error Main.ApiError.NegativeBalance) ∧
    (∀ e, Main.post_transaction s uid c a tid = Except.error e →
      Main.runOp s (Main.Op.apply uid c a tid) = s ∧
      (Main.runOp s (Main.Op.apply uid c a tid)).transactions =
        s.transactions) := by
  refine ⟨?_, ?_, ?_, ?_, ?_⟩
  · intro h_none
    unfold Main.post_transaction
    rw [h_none]
  · intro u h_user h_stat
    unfold Main.post_transaction
    rw [h_user]
    simp [h_stat]
  · intro u h_user h_stat h_none
    unfold Main.post_transaction
    rw [h_user]
    simp [h_stat, h_none]
  · intro u bal h_user h_stat h_bal h_neg
    unfold Main.post_transaction
    rw [h_user]
    simp [h_stat, h_bal, h_neg]
  · intro e he
    constructor
    · simp only [Main.runOp, he]
    · simp only [Main.runOp, he]

/-- C5 witness: the four error scenarios on concrete stores — unknown user,
blocked user, missing EUR balance, overdraft — each return the matching
error, and the store after the failing overdraft call is unchanged. -/
theorem post_transaction_error_cases_witness :
    Main.post_transaction Main.stateActive 99 Currency.USD 5 1 =
      Except.error Main.ApiError.UserNotFound ∧
    Main.post_transaction Main.stateBlocked 2 Currency.USD 5 1 =
      Except.error Main.ApiError.UserBlocked ∧
    Main.post_transaction Main.stateActive 1 Currency.EUR 5 1 =
      Except.error Main.ApiError.BalanceNotFound ∧
    Main.post_transaction Main.stateActive 1 Currency.USD (-11) 1 =
      Except.error Main.ApiError.NegativeBalance ∧
    Main.runOp Main.stateActive (Main.Op.apply 1 Currency.USD (-11) 1) =
      Main.stateActive :=
  ⟨(post_transaction_error_cases Main.stateActive 99 Currency.USD 5 1).1
      (by decide),
   (post_transaction_error_cases Main.stateBlocked 2 Currency.USD 5 1).2.1
      { id := 2, status := UserStatus.BLOCKED } (by decide) (by decide),
   (post_transaction_error_cases Main.stateActive 1 Currency.EUR 5 1).2.2.1
      { id := 1, status := UserStatus.ACTIVE } (by decide) (by decide)
      (by decide),
   (post_transaction_error_cases Main.stateActive 1 Currency.USD (-11) 1).2.2.2.1
      { id := 1, status := UserStatus.ACTIVE }
      { user_id := 1, currency := Currency.USD, amount := 10 }
      (by decide) (by decide) (by decide) (by decide),
   ((post_transaction_error_cases Main.stateActive 1 Currency.USD (-11) 1).2.2.2.2
      Main.ApiError.NegativeBalance
      ((post_transaction_error_cases Main.stateActive 1 Currency.USD (-11) 1).2.2.2.1
        { id := 1, status := UserStatus.ACTIVE }
        { user_id := 1, currency := Currency.USD, amount := 10 }
        (by decide) (by decide) (by decide) (by decide))).1⟩

/-- C6: a `Rollback` whose inverse delta would make the balance negative
(`balance.amount - transaction.amount < 0`) fails with
`NegativeBalanceError` and leaves the store unchanged: the balance keeps its
amount and the transaction is still found with its old `PROCESSED`
status. -/
theorem rollback_negative_balance_rejected (s : Main.LedgerState)
    (uid tid : Nat) (u : Main.User) (t : Main.Transaction)
    (bal : Main.UserBalance)
    (h_user : s.users.find? (Main.userById uid) = some u)
    (h_nb : u.status ≠ UserStatus.BLOCKED)
    (h_tx : s.transactions.find? (Main.txById tid) = some t)
    (h_own : t.user_id = uid)
    (h_st : t.status = TxStatus.PROCESSED)
    (h_bal : s.balances.find? (Main.balKey uid t.currency) = some bal)
    (h_neg : bal.amount - t.amount < 0) :
    Main.patch_rollback_transaction s uid tid =
      Except.error Main.ApiError.NegativeBalance ∧
    Main.runOp s (Main.Op.rollback uid tid) = s ∧
    (Main.runOp s (Main.Op.rollback uid tid)).balances.find?
      (Main.balKey uid t.currency) = some bal ∧
    (Main.runOp s (Main.Op.rollback uid tid)).transactions.find?
      (Main.txById tid) = some t ∧ t.status = TxStatus.PROCESSED := by
  have herr : Main.patch_rollback_transaction s uid tid =
      Except.error Main.ApiError.NegativeBalance := by
    unfold Main.patch_rollback_transaction
    rw [h_user]
    simp [h_nb, h_tx, h_bal, h_own, h_st, h_neg]
  have hrun : Main.runOp s (Main.Op.rollback uid tid) = s := by
    simp only [Main.runOp, herr]
  refine ⟨herr, hrun, ?_, ?_, h_st⟩
  · rw [hrun]; exact h_bal
  · rw [hrun]; exact h_tx

/-- C6 witness: on `stateLowBalance` (balance 3, processed deposit 10) the
rollback is rejected with `NegativeBalanceError` and the store is
unchanged. -/
theorem rollback_negative_balance_rejected_witness :
    Main.patch_rollback_transaction Main.stateLowBalance 1 1 =
      Except.error Main.ApiError.NegativeBalance ∧
    Main.runOp Main.stateLowBalance (Main.Op.rollback 1 1) =
      Main.stateLowBalance :=
  ⟨(rollback_negative_balance_rejected Main.stateLowBalance 1 1
      { id := 1, status := UserStatus.ACTIVE }
      { id := 1, user_id := 1, currency := Currency.USD, amount := 10,
        status := TxStatus.PROCESSED }
      { user_id := 1, currency := Currency.USD, amount := 3 }
      (by decide) (by decide) (by decide) (by decide) (by decide) (by decide)
      (by decide)).1,
   (rollback_negative_balance_rejected Main.stateLowBalance 1 1
      { id := 1, status := UserStatus.ACTIVE }
      { id := 1, user_id := 1, currency := Currency.USD, amount := 10,
        status := TxStatus.PROCESSED }
      { user_id := 1, currency := Currency.USD, amount := 3 }
      (by decide) (by decide) (by decide) (by decide) (by decide) (by decide)
      (by decide)).2.1⟩

/-- C7: the only possible status change of a stored transaction under any
Balance Engine operation is `PROCESSED → ROLLBACKED`; and a rollback of a
transaction that is already `ROLLBACKED` (by its owner, who is not blocked)
always fails with `TransactionAlreadyRolledBackError` and leaves the store
unchanged — rollback is not idempotent. -/
theorem transaction_status_machine :
    (∀ (s : Main.LedgerState) (op : Main.Op) (i : Nat)
        (t tp : Main.Transaction),
      s.transactions[i]? = some t →
      ((Main.runOp s op).transactions)[i]? = some tp →
      tp.status = t.status ∨
        (t.status = TxStatus.PROCESSED ∧ tp.status = TxStatus.ROLLBACKED)) ∧
    (∀ (s : Main.LedgerState) (uid tid : Nat) (u : Main.User)
        (t : Main.Transaction),
      s.users.find? (Main.userById uid) = some u →
      u.status ≠ UserStatus.BLOCKED →
      s.transactions.find? (Main.txById tid) = some t →
      t.user_id = uid → t.status = TxStatus.ROLLBACKED →
      Main.patch_rollback_transaction s uid tid =
        Except.error Main.ApiError.TransactionAlreadyRollbacked ∧
      Main.runOp s (Main.Op.rollback uid tid) = s) := by
  constructor
  · intro s op i t tp ht htp
    cases op with
    | apply uid c a tid =>
      cases heq : Main.post_transaction s uid c a tid with
      | error e =>
        simp only [Main.runOp, heq] at htp
        rw [ht] at htp
        exact Or.inl (congrArg Main.Transaction.status
          (Option.some_inj.mp htp).symm)
      | ok p =>
        obtain ⟨s₁, t'⟩ := p
        obtain ⟨u, bal, _, _, _, _, _, hs₁⟩ :=
          Main.post_transaction_ok_inv s uid c a tid s₁ t' heq
        simp only [Main.runOp, heq, hs₁] at htp
        have hlt : i < s.transactions.length := by
          rcases List.getElem?_eq_some.mp ht with ⟨hl, _⟩
          exact hl
        rw [List.getElem?_append_left hlt, ht] at htp
        exact Or.inl (congrArg Main.Transaction.status
          (Option.some_inj.mp htp).symm)
    | rollback uid tid =>
      cases heq : Main.patch_rollback_transaction s uid tid with
      | error e =>
        simp only [Main.runOp, heq] at htp
        rw [ht] at htp
        exact Or.inl (congrArg Main.Transaction.status
          (Option.some_inj.mp htp).symm)
      | ok p =>
        obtain ⟨s₁, t₁⟩ := p
        obtain ⟨u, t₀, bal, _, _, h_tx, _, h_proc, _, _, _, hs₁⟩ :=
          Main.patch_rollback_ok_inv s uid tid s₁ t₁ heq
        simp only [Main.runOp, heq, hs₁] at htp
        rcases getElem?_updateFirst (Main.txById tid)
            (fun x => { x with status := TxStatus.ROLLBACKED })
            s.transactions i t tp ht htp with h | ⟨h_find, h_tp⟩
        · exact Or.inl (congrArg Main.Transaction.status h)
        · rw [h_tx] at h_find
          have h_t : t = t₀ := (Option.some_inj.mp h_find).symm
          refine Or.inr ⟨h_t ▸ h_proc, ?_⟩
          rw [h_tp]
  · intro s uid tid u t h_user h_nb h_tx h_own h_rb
    have herr : Main.patch_rollback_transaction s uid tid =
        Except.error Main.ApiError.TransactionAlreadyRollbacked := by
      unfold Main.patch_rollback_transaction
      rw [h_user]
      simp [h_nb, h_tx, h_own, h_rb]
    exact ⟨herr, by simp only [Main.runOp, herr]⟩

/-- C7 witness: rolling back the processed transaction of
`stateOneProcessed` flips its status `PROCESSED → ROLLBACKED`, and a
rollback on the already-rollbacked transaction of `stateRolledBack` fails
with `TransactionAlreadyRolledBackError` leaving the store unchanged. -/
theorem transaction_status_machine_witness :
    ((Main.runOp Main.stateOneProcessed
        (Main.Op.rollback 1 1)).transactions[0]?.map
      Main.Transaction.status = some TxStatus.ROLLBACKED) ∧
    Main.patch_rollback_transaction Main.stateRolledBack 1 1 =
      Except.error Main.ApiError.TransactionAlreadyRollbacked ∧
    Main.runOp Main.stateRolledBack (Main.Op.rollback 1 1) =
      Main.stateRolledBack := by
  refine ⟨?_, ?_, ?_⟩
  · have h := transaction_status_machine.1 Main.stateOneProcessed
      (Main.Op.rollback 1 1) 0
      { id := 1, user_id := 1, currency := Currency.USD, amount := 4,
        status := TxStatus.PROCESSED }
      { id := 1, user_id := 1, currency := Currency.USD, amount := 4,
        status := TxStatus.ROLLBACKED }
      (by decide) (by decide)
    rcases h with h | ⟨h1, h2⟩
    · cases h
    · decide
  · exact (transaction_status_machine.2 Main.stateRolledBack 1 1
      { id := 1, status := UserStatus.ACTIVE }
      { id := 1, user_id := 1, currency := Currency.USD, amount := 5,
        status := TxStatus.ROLLBACKED }
      (by decide) (by decide) (by decide) (by decide) (by decide)).1
  · exact (transaction_status_machine.2 Main.stateRolledBack 1 1
      { id := 1, status := UserStatus.ACTIVE }
      { id := 1, user_id := 1, currency := Currency.USD, amount := 5,
        status := TxStatus.ROLLBACKED }
      (by decide) (by decide) (by decide) (by decide) (by decide)).2

/-- C10: the public request model accepts a transaction-creation request
only when its amount is at least 1, so every transaction the endpoint can
create from a validated request has a strictly positive (deposit) amount:
no withdrawal can be created through the public endpoint. -/
theorem request_amount_validation (r : PythonModels.RequestTransactionModel)
    (s : Main.LedgerState) (uid tid : Nat) :
    (r.validate = true → 1 ≤ r.amount) ∧
    (r.amount < 1 → r.validate = false) ∧
    (∀ s₁ t, r.validate = true →
      Main.post_transaction s uid r.currency r.amount tid =
        Except.ok (s₁, t) →
      1 ≤ t.amount ∧ 0 < t.amount) := by
  refine ⟨?_, ?_, ?_⟩
  · intro h
    exact of_decide_eq_true h
  · intro h
    simp [PythonModels.RequestTransactionModel.validate]
    omega
  · intro s₁ t hv hok
    obtain ⟨u, bal, _, _, _, _, ht, _⟩ :=
      Main.post_transaction_ok_inv s uid r.currency r.amount tid s₁ t hok
    have ha : t.amount = r.amount := by rw [ht]
    rw [ha]
    have h1 : 1 ≤ r.amount := of_decide_eq_true hv
    exact ⟨h1, by omega⟩

/-- C10 witness: a request of amount 5 passes validation and produces a
transaction of positive amount 5 on `stateActive`; a request of amount `-3`
fails validation. -/
theorem request_amount_validation_witness :
    (PythonModels.RequestTransactionModel.validate
      { currency := Currency.USD, amount := 5 } = true → (1 : Int) ≤ 5) ∧
    PythonModels.RequestTransactionModel.validate
      { currency := Currency.USD, amount := -3 } = false ∧
    ∃ s₁ t, Main.post_transaction Main.stateActive 1 Currency.USD 5 2 =
      Except.ok (s₁, t) ∧ 1 ≤ t.amount ∧ 0 < t.amount := by
  refine ⟨?_, ?_, ?_⟩
  · exact (request_amount_validation
      { currency := Currency.USD, amount := 5 } Main.stateActive 1 2).1
  · exact (request_amount_validation
      { currency := Currency.USD, amount := -3 } Main.stateActive 1 2).2.1
      (by decide)
  · refine ⟨Main.stateAfterDeposit,
      { id := 2, user_id := 1, currency := Currency.USD, amount := 5,
        status := TxStatus.PROCESSED }, by rfl, ?_⟩
    exact (request_amount_validation
      { currency := Currency.USD, amount := 5 } Main.stateActive 1 2).2.2
      Main.stateAfterDeposit
      { id := 2, user_id := 1, currency := Currency.USD, amount := 5,
        status := TxStatus.PROCESSED }
      (by decide) (by rfl)
